import Mathlib

/-!
Verification of the StickerMe image-generation bot (src/main.py,
src/defaults/image_settings.py) against its natural-language specification.

The development shallowly embeds the pure request/response logic of the
source:

* the static preset tables (`DEFAULT_CONFIG`, `ASPECT_RATIOS`,
  `QUALITY_PRESETS`, `STYLE_PRESETS`) from src/main.py, and their copies
  from src/defaults/image_settings.py (namespace `ImageSettings`);
* the `/generate` slash-command handler's validation and resolution logic
  (`generate`), where the outcome is either a single error message sent to
  the caller (`GenOutcome.error`) or a fully resolved request handed to
  `ImageGenerator.generate_image` (`GenOutcome.request`) — the code issues
  its one network call exactly when that point is reached;
* the request payload built by `ImageGenerator.generate_image`, including
  style-preset application (`applyStylePreset`, `generate_image_payload`);
* the HTTP-response handling of `ImageGenerator.generate_image`
  (`handleResponse`), with base64 decoding (`b64decode`);
* the filename construction of `ImageGenerator.save_image`
  (`save_image_filename`).

Python `None`/value optional arguments are `Option`; Python integer
truthiness (`if width and height`, `if final_cfg_scale and ...`) is
`pyTruthy` / a `≠ 0` test, mirroring the source exactly.  Character
classification (`str.isalnum`) is modelled by `Char.isAlphanum`, i.e. for
the ASCII range.
-/

/-- Python dict `DEFAULT_CONFIG` (src/main.py lines 78-85 and
src/defaults/image_settings.py lines 2-9). -/
structure DefaultConfig where
  width : Int
  height : Int
  cfg_scale : Int
  steps : Int
  samples : Int
  model : String
deriving DecidableEq, Repr

/-- Value type of the `QUALITY_PRESETS` dict entries. -/
structure QualitySettings where
  steps : Int
  cfg_scale : Int
deriving DecidableEq, Repr

/-- Source dict `DEFAULT_CONFIG` of src/main.py. -/
def DEFAULT_CONFIG : DefaultConfig :=
  { width := 1024, height := 1024, cfg_scale := 7, steps := 30,
    samples := 1, model := "stable-diffusion-xl-1024-v1-0" }

/-- Source dict `ASPECT_RATIOS` of src/main.py, as an insertion-ordered association
list (Python dicts preserve insertion order). -/
def ASPECT_RATIOS : List (String × Int × Int) :=
  [("square", 1024, 1024),
   ("portrait", 832, 1216),
   ("landscape", 1216, 832),
   ("wide", 1344, 768),
   ("tall", 768, 1344),
   ("ultrawide", 1536, 640),
   ("ultratall", 640, 1536)]

/-- Source dict `QUALITY_PRESETS` of src/main.py. -/
def QUALITY_PRESETS : List (String × QualitySettings) :=
  [("fast", { steps := 20, cfg_scale := 7 }),
   ("standard", { steps := 30, cfg_scale := 7 }),
   ("high", { steps := 50, cfg_scale := 8 }),
   ("ultra", { steps := 75, cfg_scale := 8 })]

/-- Source dict `STYLE_PRESETS` of src/main.py. -/
def STYLE_PRESETS : List (String × String) :=
  [("photographic", "photographic, realistic, detailed, high quality"),
   ("artistic", "artistic, creative, stylized, vibrant"),
   ("cinematic", "cinematic, dramatic lighting, movie still, professional"),
   ("anime", "anime style, manga, cel shaded, colorful"),
   ("oil_painting", "oil painting, textured, artistic, traditional"),
   ("watercolor", "watercolor, soft, flowing, artistic"),
   ("digital_art", "digital art, clean, modern, professional"),
   ("sketch", "sketch, pencil drawing, monochrome, artistic")]

namespace ImageSettings

/-- Source dict `DEFAULT_CONFIG` of src/defaults/image_settings.py. -/
def DEFAULT_CONFIG : DefaultConfig :=
  { width := 1024, height := 1024, cfg_scale := 7, steps := 30,
    samples := 1, model := "stable-diffusion-xl-1024-v1-0" }

/-- Source dict `ASPECT_RATIOS` of src/defaults/image_settings.py. -/
def ASPECT_RATIOS : List (String × Int × Int) :=
  [("square", 1024, 1024),
   ("portrait", 832, 1216),
   ("landscape", 1216, 832),
   ("wide", 1344, 768),
   ("tall", 768, 1344),
   ("ultrawide", 1536, 640),
   ("ultratall", 640, 1536)]

/-- Source dict `QUALITY_PRESETS` of src/defaults/image_settings.py. -/
def QUALITY_PRESETS : List (String × QualitySettings) :=
  [("fast", { steps := 20, cfg_scale := 7 }),
   ("standard", { steps := 30, cfg_scale := 7 }),
   ("high", { steps := 50, cfg_scale := 8 }),
   ("ultra", { steps := 75, cfg_scale := 8 })]

/-- Source dict `STYLE_PRESETS` of src/defaults/image_settings.py. -/
def STYLE_PRESETS : List (String × String) :=
  [("photographic", "photographic, realistic, detailed, high quality"),
   ("artistic", "artistic, creative, stylized, vibrant"),
   ("cinematic", "cinematic, dramatic lighting, movie still, professional"),
   ("anime", "anime style, manga, cel shaded, colorful"),
   ("oil_painting", "oil painting, textured, artistic, traditional"),
   ("watercolor", "watercolor, soft, flowing, artistic"),
   ("digital_art", "digital art, clean, modern, professional"),
   ("sketch", "sketch, pencil drawing, monochrome, artistic")]

end ImageSettings

/-- Dict lookup `d[k]` returning `none` when `k not in d`
(keyed association-list search, first match). -/
def lookupKey {α : Type} (l : List (String × α)) (k : String) : Option α :=
  (l.find? (fun p => p.1 == k)).map Prod.snd

/-- Lookup `ASPECT_RATIOS[k]` combined with the test `k in ASPECT_RATIOS`. -/
def aspectRatioLookup (k : String) : Option (Int × Int) :=
  lookupKey ASPECT_RATIOS k

/-- Lookup `QUALITY_PRESETS[k]` combined with the test `k in QUALITY_PRESETS`. -/
def qualityLookup (k : String) : Option QualitySettings :=
  lookupKey QUALITY_PRESETS k

/-- Lookup `STYLE_PRESETS[k]` combined with the test `k in STYLE_PRESETS`. -/
def styleLookup (k : String) : Option String :=
  lookupKey STYLE_PRESETS k

/-- The arguments of the `/generate` slash command (src/main.py lines
252-261).  `prompt` is required; every other parameter defaults to Python
`None`, modelled as `none`.  The three `app_commands.Choice` parameters are
modelled by their `.value` string (the handler only ever reads `.value`). -/
structure GenArgs where
  prompt : String
  aspect_ratio : Option String
  quality : Option String
  style : Option String
  width : Option Int
  height : Option Int
  cfg_scale : Option Int
  steps : Option Int
deriving DecidableEq, Repr

/-- The fully resolved argument tuple the handler passes to
`image_generator.generate_image` (src/main.py lines 317-324). -/
structure GenerationRequest where
  prompt : String
  width : Int
  height : Int
  cfg_scale : Int
  steps : Int
  style : Option String
deriving DecidableEq, Repr

/-- Outcome of one `/generate` invocation, up to the point where the
handler either reports a validation error to the caller (one ephemeral
`followup.send` and `return`) or calls `generate_image` — i.e. issues the
network request. -/
inductive GenOutcome where
  | error (msg : String)
  | request (req : GenerationRequest)
deriving DecidableEq, Repr

/-- Returns true exactly on `GenOutcome.error`. -/
def GenOutcome.isError : GenOutcome → Bool
  | .error _ => true
  | .request _ => false

/-- Python truthiness of an optional int: `None` and `0` are falsy. -/
def pyTruthy : Option Int → Bool
  | none => false
  | some n => n != 0

/-- Source line 274: `aspect_ratio.value if aspect_ratio else "square"`. -/
def aspectVal (a : GenArgs) : String :=
  match a.aspect_ratio with
  | some v => v
  | none => "square"

/-- Source line 293: `quality.value if quality else "standard"`. -/
def qualityVal (a : GenArgs) : String :=
  match a.quality with
  | some v => v
  | none => "standard"

/-- Source line 305: `style.value if style and style.value != "none" else None`. -/
def styleVal (a : GenArgs) : Option String :=
  match a.style with
  | some v => if v ≠ "none" then some v else none
  | none => none

/-- The quality settings resolved for `a`.  The `getD` fallback is never
reached by `generate`: the quality key is validated (lines 296-298) before
`quality_settings` is read (line 300). -/
def qualitySettingsOf (a : GenArgs) : QualitySettings :=
  (qualityLookup (qualityVal a)).getD { steps := 0, cfg_scale := 0 }

/-- Source line 301: `final_cfg_scale = cfg_scale if cfg_scale is not None
else quality_settings["cfg_scale"]`. -/
def resolvedCfg (a : GenArgs) : Int :=
  a.cfg_scale.getD (qualitySettingsOf a).cfg_scale

/-- Source line 302: `final_steps = steps if steps is not None else
quality_settings["steps"]`. -/
def resolvedSteps (a : GenArgs) : Int :=
  a.steps.getD (qualitySettingsOf a).steps

/-- src/main.py lines 292-314 and 317-324: quality resolution, the
cfg-scale/steps truthiness-guarded range checks, and the final call to
`generate_image` — the handler's control flow after the dimensions
`img_width`/`img_height` have been resolved. -/
def generateAfterDims (a : GenArgs) (img_width img_height : Int) : GenOutcome :=
  match qualityLookup (qualityVal a) with
  | none =>
      .error ("❌ Invalid quality. Choose from: " ++
        String.intercalate ", " (QUALITY_PRESETS.map Prod.fst))
  | some quality_settings =>
      let final_cfg_scale := a.cfg_scale.getD quality_settings.cfg_scale
      let final_steps := a.steps.getD quality_settings.steps
      let style_value := styleVal a
      if final_cfg_scale ≠ 0 ∧ ¬(1 ≤ final_cfg_scale ∧ final_cfg_scale ≤ 20) then
        .error "❌ CFG scale must be between 1 and 20"
      else if final_steps ≠ 0 ∧ ¬(10 ≤ final_steps ∧ final_steps ≤ 150) then
        .error "❌ Steps must be between 10 and 150"
      else
        .request { prompt := a.prompt, width := img_width, height := img_height,
                   cfg_scale := final_cfg_scale, steps := final_steps,
                   style := style_value }

/-- The `/generate` handler, src/main.py lines 265-324: prompt emptiness
check, aspect-ratio membership check, explicit-dimension truthiness test
and range check (`if width and height`, lines 282-290), then
`generateAfterDims`.  In the explicit branch `width`/`height` are known
`some` and nonzero, so `getD 0` reads exactly the supplied values. -/
def generate (a : GenArgs) : GenOutcome :=
  if a.prompt = "" then
    .error "Please provide a prompt for image generation."
  else
    match aspectRatioLookup (aspectVal a) with
    | none =>
        .error ("❌ Invalid aspect ratio. Choose from: " ++
          String.intercalate ", " (ASPECT_RATIOS.map Prod.fst))
    | some (preset_w, preset_h) =>
        if pyTruthy a.width && pyTruthy a.height then
          let w := a.width.getD 0
          let h := a.height.getD 0
          if ¬(512 ≤ w ∧ w ≤ 1536 ∧ 512 ≤ h ∧ h ≤ 1536) then
            .error "❌ Width and height must be between 512 and 1536"
          else
            generateAfterDims a w h
        else
          generateAfterDims a preset_w preset_h

/-- Style-preset application inside `ImageGenerator.generate_image`
(src/main.py lines 137-139): `if style and style in STYLE_PRESETS:
prompt = f"{prompt}, {STYLE_PRESETS[style]}"`.  Here `style` is a Python
string or `None`; string truthiness means the empty string is also
skipped. -/
def applyStylePreset (prompt : String) (style : Option String) : String :=
  match style with
  | none => prompt
  | some s =>
      if s = "" then prompt
      else
        match styleLookup s with
        | some t => prompt ++ ", " ++ t
        | none => prompt

/-- The JSON payload `ImageGenerator.generate_image` posts upstream
(src/main.py lines 141-153), flattening the single
`text_prompts[0] = {text, weight}` object into `text`/`weight` fields. -/
structure Payload where
  text : String
  weight : Int
  cfg_scale : Int
  height : Int
  width : Int
  samples : Int
  steps : Int
deriving DecidableEq, Repr

/-- Client method `ImageGenerator.generate_image` up to the network call: style
application followed by payload construction (src/main.py lines 133-153). -/
def generate_image_payload (prompt : String) (width height cfg_scale stepcount : Int)
    (style : Option String) : Payload :=
  let prompt := applyStylePreset prompt style
  { text := prompt, weight := 1, cfg_scale := cfg_scale, height := height,
    width := width, samples := 1, steps := stepcount }

/-- The value of one base64 character, `none` for padding or invalid
characters (standard alphabet, as `base64.b64decode` uses). -/
def b64Index (c : Char) : Option Nat :=
  if 'A' ≤ c ∧ c ≤ 'Z' then some (c.toNat - 'A'.toNat)
  else if 'a' ≤ c ∧ c ≤ 'z' then some (c.toNat - 'a'.toNat + 26)
  else if '0' ≤ c ∧ c ≤ '9' then some (c.toNat - '0'.toNat + 52)
  else if c = '+' then some 62
  else if c = '/' then some 63
  else none

/-- Reassemble 6-bit groups into 8-bit bytes, dropping the final partial
byte the padding would have contributed. -/
def b64Bytes : List Nat → List Nat
  | a :: b :: c :: d :: rest =>
      (a * 4 + b / 16) :: (b % 16 * 16 + c / 4) :: (c % 4 * 64 + d) :: b64Bytes rest
  | [a, b, c] => [a * 4 + b / 16, b % 16 * 16 + c / 4]
  | [a, b] => [a * 4 + b / 16]
  | _ => []

/-- Python `base64.b64decode` (src/main.py line 165) on well-formed input,
producing the byte list of the decoded binary. -/
def b64decode (s : String) : List Nat :=
  b64Bytes (s.toList.filterMap b64Index)

/-- The part of the upstream HTTP response `generate_image` inspects:
the status code, the `artifacts` list of the parsed JSON body (each
artifact reduced to its `base64` string; `none` when the key is absent),
and the raw body text used in the non-200 error message. -/
structure HttpResponse where
  status : Nat
  artifacts : Option (List String)
  body : String
deriving DecidableEq, Repr

/-- Response handling of `ImageGenerator.generate_image` (src/main.py
lines 161-170): on 200 with a non-empty `artifacts` list, decode the first
artifact's base64 field; on 200 otherwise raise `"No image generated"`;
on any other status raise an error carrying the status and body text. -/
def handleResponse (r : HttpResponse) : Except String (List Nat) :=
  if r.status = 200 then
    match r.artifacts with
    | some (first :: _) => .ok (b64decode first)
    | some [] => .error "No image generated"
    | none => .error "No image generated"
  else
    .error ("API request failed with status " ++ toString r.status ++ ": " ++ r.body)

/-- Source line 175 character filter `c.isalnum() or c in (' ', '-', '_')`;
`isalnum` modelled for the ASCII range by `Char.isAlphanum`. -/
def keepChar (c : Char) : Bool :=
  c.isAlphanum || c == ' ' || c == '-' || c == '_'

/-- Python's default `str.rstrip` whitespace set:
space, tab, newline, carriage return, vertical tab, form feed. -/
def pyStripChar (c : Char) : Bool :=
  c == ' ' || c == '\t' || c == '\n' || c == '\r' ||
  c == Char.ofNat 11 || c == Char.ofNat 12

/-- Python `str.rstrip()`: drop trailing characters of the whitespace set. -/
def pyRstrip (s : String) : String :=
  String.mk ((s.toList.reverse.dropWhile pyStripChar).reverse)

/-- Filename construction of `ImageGenerator.save_image` (src/main.py lines
174-182): filter the prompt to alphanumerics/space/hyphen/underscore,
`rstrip()`, truncate to 50 characters, then format
`f"{timestamp}_{user_id}_{safe_prompt}.png"`. -/
def save_image_filename (timestamp user_id prompt : String) : String :=
  let safe_prompt := String.mk (prompt.toList.filter keepChar)
  let safe_prompt := (pyRstrip safe_prompt).take 50
  timestamp ++ "_" ++ user_id ++ "_" ++ safe_prompt ++ ".png"

/-- Modelled from the spec: the sanitized prompt of §4.3, "sanitizedPrompt
keeps only alphanumerics, spaces, hyphens, underscores, trailing-trimmed,
truncated to 50 characters" — trailing-trimming taken as removing trailing
whitespace (`Char.isWhitespace`).  Used only to compare against the code's
`save_image_filename`. -/
def sanitizedPromptSpec (prompt : String) : String :=
  (String.mk (((prompt.toList.filter keepChar).reverse.dropWhile
    Char.isWhitespace).reverse)).take 50

/-- The failure condition of the j-th validation check of the `/generate`
handler, expressed on the raw arguments (j ∈ 1..6).  Checks 5 and 6 carry
the source's truthiness guard: a resolved value of 0 does not fail them. -/
def checkFails (a : GenArgs) : Nat → Bool
  | 1 => decide (a.prompt = "")
  | 2 => decide (aspectRatioLookup (aspectVal a) = none)
  | 3 => pyTruthy a.width && pyTruthy a.height &&
         decide (¬(512 ≤ a.width.getD 0 ∧ a.width.getD 0 ≤ 1536 ∧
                   512 ≤ a.height.getD 0 ∧ a.height.getD 0 ≤ 1536))
  | 4 => decide (qualityLookup (qualityVal a) = none)
  | 5 => decide (resolvedCfg a ≠ 0 ∧ ¬(1 ≤ resolvedCfg a ∧ resolvedCfg a ≤ 20))
  | 6 => decide (resolvedSteps a ≠ 0 ∧ ¬(10 ≤ resolvedSteps a ∧ resolvedSteps a ≤ 150))
  | _ => false

/-- The index of the first failing validation check, in the handler's
evaluation order, or `none` when every check passes. -/
def firstFailing (a : GenArgs) : Option Nat :=
  if checkFails a 1 then some 1
  else if checkFails a 2 then some 2
  else if checkFails a 3 then some 3
  else if checkFails a 4 then some 4
  else if checkFails a 5 then some 5
  else if checkFails a 6 then some 6
  else none

/-- The error message the handler sends when the j-th check fails
(src/main.py lines 266, 278, 285, 297, 309, 313). -/
def errMsg : Nat → String
  | 1 => "Please provide a prompt for image generation."
  | 2 => "❌ Invalid aspect ratio. Choose from: " ++
         String.intercalate ", " (ASPECT_RATIOS.map Prod.fst)
  | 3 => "❌ Width and height must be between 512 and 1536"
  | 4 => "❌ Invalid quality. Choose from: " ++
         String.intercalate ", " (QUALITY_PRESETS.map Prod.fst)
  | 5 => "❌ CFG scale must be between 1 and 20"
  | 6 => "❌ Steps must be between 10 and 150"
  | _ => ""

theorem resolvedCfg_eq (a : GenArgs) (qs : QualitySettings)
    (h : qualityLookup (qualityVal a) = some qs) :
    resolvedCfg a = a.cfg_scale.getD qs.cfg_scale := by
  simp [resolvedCfg, qualitySettingsOf, h]

theorem resolvedSteps_eq (a : GenArgs) (qs : QualitySettings)
    (h : qualityLookup (qualityVal a) = some qs) :
    resolvedSteps a = a.steps.getD qs.steps := by
  simp [resolvedSteps, qualitySettingsOf, h]

theorem generate_prompt_empty (a : GenArgs) (h : a.prompt = "") :
    generate a = .error (errMsg 1) := by
  simp [generate, h, errMsg]

theorem generate_bad_aspect (a : GenArgs) (h1 : a.prompt ≠ "")
    (h2 : aspectRatioLookup (aspectVal a) = none) :
    generate a = .error (errMsg 2) := by
  simp [generate, h1, h2, errMsg]

theorem generate_bad_dims (a : GenArgs) (h1 : a.prompt ≠ "")
    (pw ph : Int) (h2 : aspectRatioLookup (aspectVal a) = some (pw, ph))
    (ht : (pyTruthy a.width && pyTruthy a.height) = true)
    (hr : ¬(512 ≤ a.width.getD 0 ∧ a.width.getD 0 ≤ 1536 ∧
            512 ≤ a.height.getD 0 ∧ a.height.getD 0 ≤ 1536)) :
    generate a = .error (errMsg 3) := by
  simp [generate, h1, h2, ht, hr, errMsg]

theorem generate_explicit_dims (a : GenArgs) (h1 : a.prompt ≠ "")
    (pw ph : Int) (h2 : aspectRatioLookup (aspectVal a) = some (pw, ph))
    (ht : (pyTruthy a.width && pyTruthy a.height) = true)
    (hr : 512 ≤ a.width.getD 0 ∧ a.width.getD 0 ≤ 1536 ∧
          512 ≤ a.height.getD 0 ∧ a.height.getD 0 ≤ 1536) :
    generate a = generateAfterDims a (a.width.getD 0) (a.height.getD 0) := by
  simp [generate, h1, h2, ht, hr]

theorem generate_preset_dims (a : GenArgs) (h1 : a.prompt ≠ "")
    (pw ph : Int) (h2 : aspectRatioLookup (aspectVal a) = some (pw, ph))
    (ht : (pyTruthy a.width && pyTruthy a.height) = false) :
    generate a = generateAfterDims a pw ph := by
  simp [generate, h1, h2, ht]

theorem afterDims_bad_quality (a : GenArgs) (w h : Int)
    (hq : qualityLookup (qualityVal a) = none) :
    generateAfterDims a w h = .error (errMsg 4) := by
  simp [generateAfterDims, hq, errMsg]

theorem afterDims_cfg_error (a : GenArgs) (w h : Int)
    (qs : QualitySettings) (hq : qualityLookup (qualityVal a) = some qs)
    (hc : resolvedCfg a ≠ 0 ∧ ¬(1 ≤ resolvedCfg a ∧ resolvedCfg a ≤ 20)) :
    generateAfterDims a w h = .error (errMsg 5) := by
  rw [resolvedCfg_eq a qs hq] at hc
  simp [generateAfterDims, hq, hc, errMsg]

theorem afterDims_no_cfg_error (a : GenArgs) (w h : Int)
    (qs : QualitySettings) (hq : qualityLookup (qualityVal a) = some qs)
    (hc : ¬(resolvedCfg a ≠ 0 ∧ ¬(1 ≤ resolvedCfg a ∧ resolvedCfg a ≤ 20)))
    (hs : resolvedSteps a ≠ 0 ∧ ¬(10 ≤ resolvedSteps a ∧ resolvedSteps a ≤ 150)) :
    generateAfterDims a w h = .error (errMsg 6) := by
  rw [resolvedCfg_eq a qs hq] at hc
  rw [resolvedSteps_eq a qs hq] at hs
  simp only [generateAfterDims, hq]
  rw [if_neg hc, if_pos hs]
  rfl

theorem afterDims_success (a : GenArgs) (w h : Int)
    (qs : QualitySettings) (hq : qualityLookup (qualityVal a) = some qs)
    (hc : ¬(resolvedCfg a ≠ 0 ∧ ¬(1 ≤ resolvedCfg a ∧ resolvedCfg a ≤ 20)))
    (hs : ¬(resolvedSteps a ≠ 0 ∧ ¬(10 ≤ resolvedSteps a ∧ resolvedSteps a ≤ 150))) :
    generateAfterDims a w h =
      .request { prompt := a.prompt, width := w, height := h,
                 cfg_scale := resolvedCfg a, steps := resolvedSteps a,
                 style := styleVal a } := by
  rw [resolvedCfg_eq a qs hq] at hc
  rw [resolvedSteps_eq a qs hq] at hs
  simp only [generateAfterDims, hq]
  rw [if_neg hc, if_neg hs, resolvedCfg_eq a qs hq, resolvedSteps_eq a qs hq]

theorem checkFails1_eq (a : GenArgs) :
    checkFails a 1 = decide (a.prompt = "") := rfl

theorem checkFails2_eq (a : GenArgs) :
    checkFails a 2 = decide (aspectRatioLookup (aspectVal a) = none) := rfl

theorem checkFails3_eq (a : GenArgs) :
    checkFails a 3 = ((pyTruthy a.width && pyTruthy a.height) &&
      decide (¬(512 ≤ a.width.getD 0 ∧ a.width.getD 0 ≤ 1536 ∧
                512 ≤ a.height.getD 0 ∧ a.height.getD 0 ≤ 1536))) := rfl

theorem checkFails4_eq (a : GenArgs) :
    checkFails a 4 = decide (qualityLookup (qualityVal a) = none) := rfl

theorem checkFails5_eq (a : GenArgs) :
    checkFails a 5 =
      decide (resolvedCfg a ≠ 0 ∧ ¬(1 ≤ resolvedCfg a ∧ resolvedCfg a ≤ 20)) := rfl

theorem checkFails6_eq (a : GenArgs) :
    checkFails a 6 =
      decide (resolvedSteps a ≠ 0 ∧
        ¬(10 ≤ resolvedSteps a ∧ resolvedSteps a ≤ 150)) := rfl

theorem generate_eq_afterDims_of_checks (a : GenArgs)
    (hc1 : checkFails a 1 = false) (hc2 : checkFails a 2 = false)
    (hc3 : checkFails a 3 = false) :
    ∃ w h, generate a = generateAfterDims a w h := by
  have h1 : a.prompt ≠ "" := of_decide_eq_false (checkFails1_eq a ▸ hc1)
  have h2 : aspectRatioLookup (aspectVal a) ≠ none :=
    of_decide_eq_false (checkFails2_eq a ▸ hc2)
  obtain ⟨⟨pw, ph⟩, hlk⟩ := Option.ne_none_iff_exists'.mp h2
  cases ht : pyTruthy a.width && pyTruthy a.height with
  | false => exact ⟨pw, ph, generate_preset_dims a h1 pw ph hlk ht⟩
  | true =>
      have hr : 512 ≤ a.width.getD 0 ∧ a.width.getD 0 ≤ 1536 ∧
                512 ≤ a.height.getD 0 ∧ a.height.getD 0 ≤ 1536 := by
        have h3' := checkFails3_eq a ▸ hc3
        rw [ht, Bool.true_and] at h3'
        exact not_not.mp (of_decide_eq_false h3')
      exact ⟨_, _, generate_explicit_dims a h1 pw ph hlk ht hr⟩

theorem gen_err1 (a : GenArgs) (h1 : checkFails a 1 = true) :
    generate a = .error (errMsg 1) :=
  generate_prompt_empty a (of_decide_eq_true (checkFails1_eq a ▸ h1))

theorem gen_err2 (a : GenArgs) (h1 : checkFails a 1 = false)
    (h2 : checkFails a 2 = true) :
    generate a = .error (errMsg 2) :=
  generate_bad_aspect a (of_decide_eq_false (checkFails1_eq a ▸ h1))
    (of_decide_eq_true (checkFails2_eq a ▸ h2))

theorem gen_err3 (a : GenArgs) (h1 : checkFails a 1 = false)
    (h2 : checkFails a 2 = false) (h3 : checkFails a 3 = true) :
    generate a = .error (errMsg 3) := by
  have hp : a.prompt ≠ "" := of_decide_eq_false (checkFails1_eq a ▸ h1)
  have h2' : aspectRatioLookup (aspectVal a) ≠ none :=
    of_decide_eq_false (checkFails2_eq a ▸ h2)
  obtain ⟨⟨pw, ph⟩, hlk⟩ := Option.ne_none_iff_exists'.mp h2'
  have h3' := checkFails3_eq a ▸ h3
  rw [Bool.and_eq_true] at h3'
  exact generate_bad_dims a hp pw ph hlk h3'.1 (of_decide_eq_true h3'.2)

theorem gen_err4 (a : GenArgs) (h1 : checkFails a 1 = false)
    (h2 : checkFails a 2 = false) (h3 : checkFails a 3 = false)
    (h4 : checkFails a 4 = true) :
    generate a = .error (errMsg 4) := by
  obtain ⟨w, h, heq⟩ := generate_eq_afterDims_of_checks a h1 h2 h3
  rw [heq]
  exact afterDims_bad_quality a w h (of_decide_eq_true (checkFails4_eq a ▸ h4))

theorem gen_err5 (a : GenArgs) (h1 : checkFails a 1 = false)
    (h2 : checkFails a 2 = false) (h3 : checkFails a 3 = false)
    (h4 : checkFails a 4 = false) (h5 : checkFails a 5 = true) :
    generate a = .error (errMsg 5) := by
  obtain ⟨w, h, heq⟩ := generate_eq_afterDims_of_checks a h1 h2 h3
  have h4' : qualityLookup (qualityVal a) ≠ none :=
    of_decide_eq_false (checkFails4_eq a ▸ h4)
  obtain ⟨qs, hq⟩ := Option.ne_none_iff_exists'.mp h4'
  rw [heq]
  exact afterDims_cfg_error a w h qs hq (of_decide_eq_true (checkFails5_eq a ▸ h5))

theorem gen_err6 (a : GenArgs) (h1 : checkFails a 1 = false)
    (h2 : checkFails a 2 = false) (h3 : checkFails a 3 = false)
    (h4 : checkFails a 4 = false) (h5 : checkFails a 5 = false)
    (h6 : checkFails a 6 = true) :
    generate a = .error (errMsg 6) := by
  obtain ⟨w, h, heq⟩ := generate_eq_afterDims_of_checks a h1 h2 h3
  have h4' : qualityLookup (qualityVal a) ≠ none :=
    of_decide_eq_false (checkFails4_eq a ▸ h4)
  obtain ⟨qs, hq⟩ := Option.ne_none_iff_exists'.mp h4'
  rw [heq]
  exact afterDims_no_cfg_error a w h qs hq
    (of_decide_eq_false (checkFails5_eq a ▸ h5))
    (of_decide_eq_true (checkFails6_eq a ▸ h6))

theorem gen_ok (a : GenArgs) (h1 : checkFails a 1 = false)
    (h2 : checkFails a 2 = false) (h3 : checkFails a 3 = false)
    (h4 : checkFails a 4 = false) (h5 : checkFails a 5 = false)
    (h6 : checkFails a 6 = false) :
    ∃ r, generate a = .request r := by
  obtain ⟨w, h, heq⟩ := generate_eq_afterDims_of_checks a h1 h2 h3
  have h4' : qualityLookup (qualityVal a) ≠ none :=
    of_decide_eq_false (checkFails4_eq a ▸ h4)
  obtain ⟨qs, hq⟩ := Option.ne_none_iff_exists'.mp h4'
  exact ⟨{ prompt := a.prompt, width := w, height := h,
           cfg_scale := resolvedCfg a, steps := resolvedSteps a,
           style := styleVal a },
    heq.trans (afterDims_success a w h qs hq
      (of_decide_eq_false (checkFails5_eq a ▸ h5))
      (of_decide_eq_false (checkFails6_eq a ▸ h6)))⟩

/-- Every run of the handler either reports an error or reaches the
`generate_image` call with some resolved dimensions. -/
theorem generate_error_or_afterDims (a : GenArgs) :
    (generate a).isError = true ∨
      ∃ w h, generate a = generateAfterDims a w h := by
  by_cases h1 : a.prompt = ""
  · exact Or.inl (by rw [generate_prompt_empty a h1]; rfl)
  · cases h2 : aspectRatioLookup (aspectVal a) with
    | none => exact Or.inl (by rw [generate_bad_aspect a h1 h2]; rfl)
    | some p =>
        obtain ⟨pw, ph⟩ := p
        cases ht : pyTruthy a.width && pyTruthy a.height with
        | false => exact Or.inr ⟨pw, ph, generate_preset_dims a h1 pw ph h2 ht⟩
        | true =>
            by_cases hr : 512 ≤ a.width.getD 0 ∧ a.width.getD 0 ≤ 1536 ∧
                          512 ≤ a.height.getD 0 ∧ a.height.getD 0 ≤ 1536
            · exact Or.inr ⟨_, _, generate_explicit_dims a h1 pw ph h2 ht hr⟩
            · exact Or.inl (by rw [generate_bad_dims a h1 pw ph h2 ht hr]; rfl)


/-- C1 (amended): the six validation checks of the `/generate` handler are
evaluated in the spec's stated order — (1) prompt non-empty, (2)
aspect-ratio key in the preset table, (3) explicit width/height both in
[512, 1536], (4) quality key in the preset table, (5) resolved cfgScale in
[1, 20] *provided it is nonzero*, (6) resolved steps in [10, 150]
*provided it is nonzero* — and the first failing check is terminal: the
handler reports exactly that check's error message and never reaches the
generation call; when no check fails, the generation call is reached. -/
theorem C1_validation_order (a : GenArgs) :
    (∀ j, firstFailing a = some j → generate a = GenOutcome.error (errMsg j)) ∧
    (firstFailing a = none → ∃ r, generate a = GenOutcome.request r) := by
  cases h1 : checkFails a 1 with
  | true =>
      have hff : firstFailing a = some 1 := by simp [firstFailing, h1]
      refine ⟨fun j hj => ?_, fun hn => by rw [hff] at hn; cases hn⟩
      rw [hff] at hj
      injection hj with h
      subst h
      exact gen_err1 a h1
  | false =>
      cases h2 : checkFails a 2 with
      | true =>
          have hff : firstFailing a = some 2 := by simp [firstFailing, h1, h2]
          refine ⟨fun j hj => ?_, fun hn => by rw [hff] at hn; cases hn⟩
          rw [hff] at hj
          injection hj with h
          subst h
          exact gen_err2 a h1 h2
      | false =>
          cases h3 : checkFails a 3 with
          | true =>
              have hff : firstFailing a = some 3 := by
                simp [firstFailing, h1, h2, h3]
              refine ⟨fun j hj => ?_, fun hn => by rw [hff] at hn; cases hn⟩
              rw [hff] at hj
              injection hj with h
              subst h
              exact gen_err3 a h1 h2 h3
          | false =>
              cases h4 : checkFails a 4 with
              | true =>
                  have hff : firstFailing a = some 4 := by
                    simp [firstFailing, h1, h2, h3, h4]
                  refine ⟨fun j hj => ?_, fun hn => by rw [hff] at hn; cases hn⟩
                  rw [hff] at hj
                  injection hj with h
                  subst h
                  exact gen_err4 a h1 h2 h3 h4
              | false =>
                  cases h5 : checkFails a 5 with
                  | true =>
                      have hff : firstFailing a = some 5 := by
                        simp [firstFailing, h1, h2, h3, h4, h5]
                      refine ⟨fun j hj => ?_,
                              fun hn => by rw [hff] at hn; cases hn⟩
                      rw [hff] at hj
                      injection hj with h
                      subst h
                      exact gen_err5 a h1 h2 h3 h4 h5
                  | false =>
                      cases h6 : checkFails a 6 with
                      | true =>
                          have hff : firstFailing a = some 6 := by
                            simp [firstFailing, h1, h2, h3, h4, h5, h6]
                          refine ⟨fun j hj => ?_,
                                  fun hn => by rw [hff] at hn; cases hn⟩
                          rw [hff] at hj
                          injection hj with h
                          subst h
                          exact gen_err6 a h1 h2 h3 h4 h5 h6
                      | false =>
                          have hff : firstFailing a = none := by
                            simp [firstFailing, h1, h2, h3, h4, h5, h6]
                          refine ⟨fun j hj => ?_,
                                  fun _ => gen_ok a h1 h2 h3 h4 h5 h6⟩
                          rw [hff] at hj
                          cases hj

/-- Witness for C1: with an explicit cfg_scale of 25 the first failing
check is (5) and the handler reports exactly the cfg-scale message.
Arguments are positional: prompt, aspect_ratio, quality, style, width,
height, cfg_scale, steps. -/
theorem C1_validation_order_witness :
    firstFailing (GenArgs.mk "a" none none none none none (some 25) none) =
      some 5 ∧
    generate (GenArgs.mk "a" none none none none none (some 25) none) =
      GenOutcome.error "❌ CFG scale must be between 1 and 20" :=
  ⟨by decide,
   (C1_validation_order
     (GenArgs.mk "a" none none none none none (some 25) none)).1 5 (by decide)⟩

/-- Counterexample to C1 as stated: with an explicit cfg_scale override of
0 the resolved cfgScale lies outside [1, 20], so per the claim check (5)
fails and must terminate the command with an error; the handler instead
proceeds all the way to the generation call with cfg_scale 0.
`GenArgs` fields are positional: prompt, aspect_ratio, quality, style,
width, height, cfg_scale, steps. -/
theorem C1_counterexample :
    ¬(1 ≤ resolvedCfg (GenArgs.mk "a" none none none none none (some 0) none) ∧
      resolvedCfg (GenArgs.mk "a" none none none none none (some 0) none) ≤ 20) ∧
    generate (GenArgs.mk "a" none none none none none (some 0) none) =
      GenOutcome.request (GenerationRequest.mk "a" 1024 1024 0 30 none) := by
  exact ⟨by decide, by decide⟩

/-- C2 (amended): whenever the resolved cfgScale is nonzero and outside
[1, 20], or the resolved steps value is nonzero and outside [10, 150], the
`/generate` handler reports an error and never reaches the generation
call (no network request is issued); a resolved value of exactly 0 is not
rejected. -/
theorem C2_range_rejection (a : GenArgs)
    (hout : (resolvedCfg a ≠ 0 ∧ ¬(1 ≤ resolvedCfg a ∧ resolvedCfg a ≤ 20)) ∨
            (resolvedSteps a ≠ 0 ∧
             ¬(10 ≤ resolvedSteps a ∧ resolvedSteps a ≤ 150))) :
    (generate a).isError = true := by
  rcases generate_error_or_afterDims a with he | ⟨w, h, heq⟩
  · exact he
  · rw [heq]
    cases hq : qualityLookup (qualityVal a) with
    | none => rw [afterDims_bad_quality a w h hq]; rfl
    | some qs =>
        rcases hout with hc | hs
        · rw [afterDims_cfg_error a w h qs hq hc]; rfl
        · by_cases hc : resolvedCfg a ≠ 0 ∧ ¬(1 ≤ resolvedCfg a ∧ resolvedCfg a ≤ 20)
          · rw [afterDims_cfg_error a w h qs hq hc]; rfl
          · rw [afterDims_no_cfg_error a w h qs hq hc hs]; rfl

/-- Witness for C2: an explicit steps override of 500 is rejected before
the generation call (`GenArgs` fields positional: prompt, aspect_ratio,
quality, style, width, height, cfg_scale, steps). -/
theorem C2_range_rejection_witness :
    (generate (GenArgs.mk "b" none none none none none none (some 500))).isError
      = true :=
  C2_range_rejection (GenArgs.mk "b" none none none none none none (some 500))
    (Or.inr (by decide))

/-- Counterexample to C2 as stated: the explicit user override steps = 0
resolves to a steps value outside [10, 150], yet the handler reports no
error and reaches the generation call with steps 0 (`GenArgs` fields
positional: prompt, aspect_ratio, quality, style, width, height,
cfg_scale, steps). -/
theorem C2_counterexample :
    ¬(10 ≤ resolvedSteps (GenArgs.mk "b" none none none none none none (some 0)) ∧
      resolvedSteps (GenArgs.mk "b" none none none none none none (some 0)) ≤ 150) ∧
    (generate (GenArgs.mk "b" none none none none none none (some 0))).isError
      = false ∧
    generate (GenArgs.mk "b" none none none none none none (some 0)) =
      GenOutcome.request (GenerationRequest.mk "b" 1024 1024 7 0 none) := by
  exact ⟨by decide, by decide, by decide⟩

/-- The default ("standard" quality) resolved cfg_scale of 7 passes the
range check.  Stated on the literal; used through the definitional
reduction `resolvedCfg a ≡ 7` for argument records without overrides. -/
theorem cfg7_in_range : ¬((7 : Int) ≠ 0 ∧ ¬(1 ≤ (7 : Int) ∧ (7 : Int) ≤ 20)) := by
  decide

/-- The default ("standard" quality) resolved steps of 30 pass the range
check. -/
theorem steps30_in_range :
    ¬((30 : Int) ≠ 0 ∧ ¬(10 ≤ (30 : Int) ∧ (30 : Int) ≤ 150)) := by
  decide

/-- C3: for every aspect-ratio key in the preset table, resolving with
that key and no explicit width/height yields exactly the tabulated
(width, height); with no aspect-ratio, quality, or style specified the
resolved request is width 1024, height 1024, cfgScale 7, steps 30, and an
unmodified prompt with no style (`GenArgs` fields positional: prompt,
aspect_ratio, quality, style, width, height, cfg_scale, steps). -/
theorem C3_preset_resolution :
    (∀ (p key : String) (pw ph : Int), p ≠ "" →
      aspectRatioLookup key = some (pw, ph) →
      generate (GenArgs.mk p (some key) none none none none none none) =
        GenOutcome.request (GenerationRequest.mk p pw ph 7 30 none)) ∧
    (∀ p : String, p ≠ "" →
      generate (GenArgs.mk p none none none none none none none) =
        GenOutcome.request (GenerationRequest.mk p 1024 1024 7 30 none)) := by
  constructor
  · intro p key pw ph hp hlk
    have heq := generate_preset_dims
      (GenArgs.mk p (some key) none none none none none none) hp pw ph hlk rfl
    rw [heq]
    exact afterDims_success _ pw ph (QualitySettings.mk 30 7) rfl
      cfg7_in_range steps30_in_range
  · intro p hp
    have heq := generate_preset_dims
      (GenArgs.mk p none none none none none none none) hp 1024 1024 rfl rfl
    rw [heq]
    exact afterDims_success _ 1024 1024 (QualitySettings.mk 30 7) rfl
      cfg7_in_range steps30_in_range

/-- Witness for C3: the "portrait" preset resolves to 832x1216, and the
no-overrides scenario resolves to the documented defaults. -/
theorem C3_preset_resolution_witness :
    generate (GenArgs.mk "a red fox" (some "portrait") none none none none none none) =
      GenOutcome.request (GenerationRequest.mk "a red fox" 832 1216 7 30 none) ∧
    generate (GenArgs.mk "a red fox" none none none none none none none) =
      GenOutcome.request (GenerationRequest.mk "a red fox" 1024 1024 7 30 none) :=
  ⟨C3_preset_resolution.1 "a red fox" "portrait" 832 1216 (by decide) (by decide),
   C3_preset_resolution.2 "a red fox" (by decide)⟩

/-- C4: any width/height pair with both values in [512, 1536], supplied
explicitly, is accepted as the resolved dimensions, bypassing the
aspect-ratio preset: whatever (valid or absent) aspect-ratio key is given,
the resolved request carries exactly the explicit pair (`GenArgs` fields
positional: prompt, aspect_ratio, quality, style, width, height,
cfg_scale, steps). -/
theorem C4_explicit_dims (p : String) (ar : Option String) (w h : Int)
    (hp : p ≠ "")
    (har : aspectRatioLookup
      (aspectVal (GenArgs.mk p ar none none (some w) (some h) none none)) ≠ none)
    (hw1 : 512 ≤ w) (hw2 : w ≤ 1536) (hh1 : 512 ≤ h) (hh2 : h ≤ 1536) :
    generate (GenArgs.mk p ar none none (some w) (some h) none none) =
      GenOutcome.request (GenerationRequest.mk p w h 7 30 none) := by
  obtain ⟨⟨pw, ph⟩, hlk⟩ := Option.ne_none_iff_exists'.mp har
  have ht : (pyTruthy (some w) && pyTruthy (some h)) = true := by
    simp only [pyTruthy, Bool.and_eq_true, bne_iff_ne]
    omega
  have heq := generate_explicit_dims
    (GenArgs.mk p ar none none (some w) (some h) none none) hp pw ph hlk ht
    ⟨hw1, hw2, hh1, hh2⟩
  rw [heq]
  exact afterDims_success _ w h (QualitySettings.mk 30 7) rfl
    cfg7_in_range steps30_in_range

/-- Witness for C4: explicit 600x700 with the "ultrawide" preset selected
still resolves to 600x700. -/
theorem C4_explicit_dims_witness :
    generate (GenArgs.mk "cat" (some "ultrawide") none none
      (some 600) (some 700) none none) =
      GenOutcome.request (GenerationRequest.mk "cat" 600 700 7 30 none) :=
  C4_explicit_dims "cat" (some "ultrawide") 600 700 (by decide) (by decide)
    (by decide) (by decide) (by decide) (by decide)

/-- C9: when the explicit width/height pair is incomplete or contains a 0
(Python-falsy) value, the handler silently falls back to the aspect-ratio
preset's dimensions — no validation error is reported even when the lone
provided value lies outside [512, 1536] (`GenArgs` fields positional:
prompt, aspect_ratio, quality, style, width, height, cfg_scale, steps). -/
theorem C9_partial_dims_ignored (p : String) (ar : Option String)
    (w h : Option Int) (pw ph : Int) (hp : p ≠ "")
    (ht : (pyTruthy w && pyTruthy h) = false)
    (hlk : aspectRatioLookup
      (aspectVal (GenArgs.mk p ar none none w h none none)) = some (pw, ph)) :
    generate (GenArgs.mk p ar none none w h none none) =
      GenOutcome.request (GenerationRequest.mk p pw ph 7 30 none) := by
  have heq := generate_preset_dims
    (GenArgs.mk p ar none none w h none none) hp pw ph hlk ht
  rw [heq]
  exact afterDims_success _ pw ph (QualitySettings.mk 30 7) rfl
    cfg7_in_range steps30_in_range

/-- Witness for C9: a lone width of 5000 (far outside [512, 1536]) with no
height is silently ignored; the square preset's 1024x1024 is used and no
error is produced. -/
theorem C9_partial_dims_ignored_witness :
    generate (GenArgs.mk "dog" none none none (some 5000) none none none) =
      GenOutcome.request (GenerationRequest.mk "dog" 1024 1024 7 30 none) :=
  C9_partial_dims_ignored "dog" none (some 5000) none 1024 1024
    (by decide) (by decide) (by decide)

/-- C5: style resolution is an identity for an unspecified style and for
the sentinel "none" (the handler maps the "none" choice to `None` before
calling the client, and the client leaves the prompt unchanged), and for
every key of the style preset table the upstream prompt is exactly the
user prompt followed by ", " and that key's preset text. -/
theorem C5_style_resolution :
    (∀ p : String, applyStylePreset p none = p) ∧
    (∀ (p : String) (a : GenArgs), a.style = some "none" →
      applyStylePreset p (styleVal a) = p) ∧
    (∀ p s t : String, styleLookup s = some t →
      applyStylePreset p (some s) = p ++ ", " ++ t) := by
  refine ⟨fun p => rfl, ?_, ?_⟩
  · intro p a ha
    simp [styleVal, ha, applyStylePreset]
  · intro p s t hst
    have hs : s ≠ "" := by
      intro h
      subst h
      rw [show styleLookup "" = none from rfl] at hst
      exact Option.noConfusion hst
    simp [applyStylePreset, hs, hst]

/-- Witness for C5: the sentinel "none" leaves "a red fox" unchanged, and
the "anime" key appends exactly its preset text (`GenArgs` fields
positional: prompt, aspect_ratio, quality, style, width, height,
cfg_scale, steps). -/
theorem C5_style_resolution_witness :
    applyStylePreset "a red fox"
      (styleVal (GenArgs.mk "a red fox" none none (some "none") none none none none))
      = "a red fox" ∧
    applyStylePreset "a red fox" (some "anime") =
      "a red fox, anime style, manga, cel shaded, colorful" :=
  ⟨C5_style_resolution.2.1 "a red fox"
     (GenArgs.mk "a red fox" none none (some "none") none none none none) rfl,
   C5_style_resolution.2.2 "a red fox" "anime"
     "anime style, manga, cel shaded, colorful" (by decide)⟩

/-- C10: a style argument that is some string not in the style preset
table is silently ignored by the generation client: the payload equals the
no-style payload and the upstream prompt is the user prompt unchanged. -/
theorem C10_unknown_style_ignored (p : String) (w h cfg stepcount : Int)
    (s : String) (hs : styleLookup s = none) :
    generate_image_payload p w h cfg stepcount (some s) =
      generate_image_payload p w h cfg stepcount none ∧
    (generate_image_payload p w h cfg stepcount (some s)).text = p := by
  by_cases he : s = ""
  · subst he
    exact ⟨rfl, rfl⟩
  · constructor <;> simp [generate_image_payload, applyStylePreset, he, hs]

/-- Witness for C10: the unknown style key "vaporwave" leaves the payload
exactly as if no style had been requested. -/
theorem C10_unknown_style_ignored_witness :
    generate_image_payload "x" 1024 1024 7 30 (some "vaporwave") =
      generate_image_payload "x" 1024 1024 7 30 none ∧
    (generate_image_payload "x" 1024 1024 7 30 (some "vaporwave")).text = "x" :=
  C10_unknown_style_ignored "x" 1024 1024 7 30 "vaporwave" (by decide)

/-- C6: the generation client's response handling — on status 200 with a
non-empty artifacts list it returns the base64 decoding of the first
artifact's base64 field; on status 200 with an empty or absent artifacts
list it fails with the "no image produced" error; on any non-200 status it
fails with an error carrying the status code and the response body text;
and the synthetic artifact "QUJD" decodes to the bytes of "ABC". -/
theorem C6_response_handling (r : HttpResponse) :
    (∀ a rest, r.status = 200 → r.artifacts = some (a :: rest) →
      handleResponse r = Except.ok (b64decode a)) ∧
    (r.status = 200 → (r.artifacts = none ∨ r.artifacts = some []) →
      handleResponse r = Except.error "No image generated") ∧
    (r.status ≠ 200 →
      handleResponse r = Except.error ("API request failed with status " ++
        toString r.status ++ ": " ++ r.body)) ∧
    b64decode "QUJD" = "ABC".toList.map Char.toNat := by
  refine ⟨?_, ?_, ?_, by decide⟩
  · intro a rest h200 hart
    simp [handleResponse, h200, hart]
  · intro h200 hart
    rcases hart with h | h <;> simp [handleResponse, h200, h]
  · intro hne
    simp [handleResponse, hne]

/-- Witness for C6: a 200 response with one artifact "QUJD" yields its
decoded bytes, and a 500 response with body "server error" yields an error
carrying both (`HttpResponse` fields positional: status, artifacts,
body). -/
theorem C6_response_handling_witness :
    handleResponse (HttpResponse.mk 200 (some ["QUJD"]) "") =
      Except.ok (b64decode "QUJD") ∧
    handleResponse (HttpResponse.mk 500 none "server error") =
      Except.error "API request failed with status 500: server error" :=
  ⟨(C6_response_handling (HttpResponse.mk 200 (some ["QUJD"]) "")).1
     "QUJD" [] rfl rfl,
   (C6_response_handling (HttpResponse.mk 500 none "server error")).2.2.1
     (by decide)⟩

/-- On characters the sanitizing filter keeps, Python's `rstrip`
whitespace set and `Char.isWhitespace` coincide: the only whitespace
character surviving the filter is the space. -/
theorem keepChar_ws (c : Char) (hc : keepChar c = true) :
    pyStripChar c = (c == ' ') ∧ c.isWhitespace = (c == ' ') := by
  by_cases hsp : c = ' '
  · subst hsp
    exact ⟨by decide, by decide⟩
  · have ht : c ≠ '\t' := by
      rintro rfl
      exact absurd hc (by decide)
    have hn : c ≠ '\n' := by
      rintro rfl
      exact absurd hc (by decide)
    have hr : c ≠ '\r' := by
      rintro rfl
      exact absurd hc (by decide)
    have hv : c ≠ Char.ofNat 11 := by
      rintro rfl
      exact absurd hc (by decide)
    have hf : c ≠ Char.ofNat 12 := by
      rintro rfl
      exact absurd hc (by decide)
    have e1 : (c == ' ') = false := beq_eq_false_iff_ne.mpr hsp
    have e2 : (c == '\t') = false := beq_eq_false_iff_ne.mpr ht
    have e3 : (c == '\n') = false := beq_eq_false_iff_ne.mpr hn
    have e4 : (c == '\r') = false := beq_eq_false_iff_ne.mpr hr
    have e5 : (c == Char.ofNat 11) = false := beq_eq_false_iff_ne.mpr hv
    have e6 : (c == Char.ofNat 12) = false := beq_eq_false_iff_ne.mpr hf
    constructor
    · simp only [pyStripChar, e1, e2, e3, e4, e5, e6]
      rfl
    · simp only [Char.isWhitespace, decide_eq_false hsp, decide_eq_false ht,
        decide_eq_false hr, decide_eq_false hn, e1]
      rfl

/-- Since `dropWhile` only inspects list elements, predicates that agree on
every element of the list drop the same prefix. -/
theorem dropWhile_congr_mem {l : List Char} {p q : Char → Bool}
    (h : ∀ c ∈ l, p c = q c) : l.dropWhile p = l.dropWhile q := by
  induction l with
  | nil => rfl
  | cons c cs ih =>
      rw [List.dropWhile_cons, List.dropWhile_cons,
        h c (List.mem_cons_self c cs)]
      cases hq : q c with
      | true =>
          simp only [if_pos rfl]
          exact ih fun x hx => h x (List.mem_cons_of_mem c hx)
      | false => simp

/-- C7: the filename produced by `save_image` equals
`{timestamp}_{userId}_{sanitizedPrompt}.png` where sanitizedPrompt keeps
only alphanumerics, spaces, hyphens and underscores, then trims trailing
whitespace, then truncates to at most 50 characters — for every prompt,
user id and timestamp. -/
theorem C7_save_filename (timestamp user_id prompt : String) :
    save_image_filename timestamp user_id prompt =
      timestamp ++ "_" ++ user_id ++ "_" ++ sanitizedPromptSpec prompt ++ ".png" := by
  have hcong : (List.filter keepChar prompt.data).reverse.dropWhile pyStripChar =
      (List.filter keepChar prompt.data).reverse.dropWhile Char.isWhitespace := by
    apply dropWhile_congr_mem
    intro c hcmem
    rw [List.mem_reverse] at hcmem
    obtain ⟨h1, h2⟩ := keepChar_ws c (List.mem_filter.mp hcmem).2
    rw [h1, h2]
  simp only [save_image_filename, sanitizedPromptSpec, pyRstrip, String.toList]
  rw [hcong]

/-- C8: the four static preset tables defined in src/main.py and the
copies defined in src/defaults/image_settings.py are verbatim identical —
key for key and value for value, in the same insertion order.  (Neither
copy is mutated anywhere in the source, which the embedding reflects by
modelling both as constants.) -/
theorem C8_tables_identical :
    DEFAULT_CONFIG = ImageSettings.DEFAULT_CONFIG ∧
    ASPECT_RATIOS = ImageSettings.ASPECT_RATIOS ∧
    QUALITY_PRESETS = ImageSettings.QUALITY_PRESETS ∧
    STYLE_PRESETS = ImageSettings.STYLE_PRESETS :=
  ⟨rfl, rfl, rfl, rfl⟩
